import Mathlib

/-
Verification of the placeholder-registry and request/response logic of the
ctf-chatbot browser clients.

The repository ships three sibling frontend scripts:
  * `Frontend1A` — the first script of src/unnamed/part_000 (eager reset after
    send, images read with FileReader.readAsDataURL, send-button guard,
    alert-based export refusal);
  * `Frontend1B` — the second script of src/unnamed/part_000 (eager reset,
    images stored as URL.createObjectURL object URLs, no session identifier,
    local markdown download only);
  * `Frontend2` — src/frontend2/script.js (mapping-item list with
    renumber-on-delete, mappings built at generate time, silent export
    refusal when no session is held).

JavaScript strings are modelled as Lean `String`s (sequences of characters),
JS objects used as dictionaries as association lists with overwrite-on-assign
semantics, and DOM containers as Lean lists of their children's relevant
attributes.  Network effects are modelled by logging each issued request in
the state and parameterising the handlers by the response outcome.  Binary
blobs (pasted images, selected files) are opaque and identified by a `Nat`.
-/

namespace CtfChatbot

/-! ### Decimal numerals

`Nat.repr` (the Lean counterpart of JavaScript's number-to-string coercion in
template literals) is injective.  This is needed to show distinctness of the
minted placeholder tokens.  We relate the fuel-based `Nat.toDigitsCore` to a
structurally recursive digit list and invert it with a decimal evaluator. -/

/-- Structural recursion computing the decimal digit characters of `n`,
most significant first. -/
def decDigits (n : Nat) : List Char :=
  if n < 10 then [Nat.digitChar n]
  else decDigits (n / 10) ++ [Nat.digitChar (n % 10)]
  decreasing_by exact Nat.div_lt_self (by omega) (by omega)

theorem toDigitsCore_eq_decDigits (fuel n : Nat) (ds : List Char) (h : n < fuel) :
    Nat.toDigitsCore 10 fuel n ds = decDigits n ++ ds := by
  induction fuel generalizing n ds with
  | zero => omega
  | succ k ih =>
    rw [Nat.toDigitsCore]
    by_cases h10 : n / 10 = 0
    · have hn : n < 10 := by omega
      rw [if_pos h10, decDigits, if_pos hn, Nat.mod_eq_of_lt hn]
      rfl
    · have hn : 10 ≤ n := by
        by_contra hlt
        exact h10 (Nat.div_eq_of_lt (by omega))
      have hdiv : n / 10 < n := Nat.div_lt_self (by omega) (by omega)
      rw [if_neg h10, decDigits, if_neg (show ¬ n < 10 by omega),
        ih (n / 10) _ (by omega)]
      simp

/-- Decimal evaluation of a digit-character list, most significant first. -/
def decVal (l : List Char) : Nat := l.foldl (fun a c => a * 10 + (c.toNat - 48)) 0

theorem decVal_decDigits (n : Nat) : decVal (decDigits n) = n := by
  induction n using Nat.strong_induction_on with
  | _ n ih =>
    rw [decDigits]
    by_cases h : n < 10
    · rw [if_pos h]
      unfold decVal
      interval_cases n <;> rfl
    · rw [if_neg h]
      unfold decVal
      rw [List.foldl_append]
      have := ih (n / 10) (Nat.div_lt_self (by omega) (by omega))
      unfold decVal at this
      rw [this]
      simp only [List.foldl]
      have h10 : n % 10 < 10 := Nat.mod_lt _ (by omega)
      have hd : (Nat.digitChar (n % 10)).toNat - 48 = n % 10 := by
        interval_cases hh : n % 10 <;> rfl
      rw [hd]
      omega

theorem natRepr_injective (m n : Nat) (h : Nat.repr m = Nat.repr n) : m = n := by
  have h2 : Nat.toDigits 10 m = Nat.toDigits 10 n := by
    have := congrArg String.data h
    simpa [Nat.repr, List.asString] using this
  have h3 : decDigits m = decDigits n := by
    have hm := toDigitsCore_eq_decDigits (m + 1) m [] (by omega)
    have hn := toDigitsCore_eq_decDigits (n + 1) n [] (by omega)
    simp only [Nat.toDigits] at h2
    rw [hm, hn] at h2
    simpa using h2
  have := congrArg decVal h3
  rwa [decVal_decDigits, decVal_decDigits] at this

/-! ### Shared model of browser/JS primitives -/

/-- String prefix test on code points: the semantics of the CSS attribute
selector `[data-placeholder^="..."]` used by frontend2's renumbering. -/
def startsWithStr (s pre : String) : Bool := pre.data.isPrefixOf s.data

theorem isPrefixOf_append (l r : List Char) : l.isPrefixOf (l ++ r) = true := by
  induction l with
  | nil => simp [List.isPrefixOf]
  | cons a as ih => simp [List.isPrefixOf, ih]

theorem startsWithStr_self_append (pre rest : String) :
    startsWithStr (pre ++ rest) pre = true := by
  unfold startsWithStr
  rw [String.data_append]
  exact isPrefixOf_append _ _

/-- Attachment payload strings, classified by the browser API that produced
them: `FileReader.readAsDataURL` yields a base64 data URL,
`URL.createObjectURL` yields a temporary object URL, and code snippets are
stored as the raw entered text. -/
inductive Content where
  | dataUrl (blob : Nat)
  | objectUrl (blob : Nat)
  | rawText (s : String)
deriving DecidableEq, Repr

def Content.isDataUrl : Content → Bool
  | .dataUrl _ => true
  | _ => false

/-- JS truthiness of the `currentSessionId` variable (`null` and the empty
string are falsy). -/
def jsTruthy : Option String → Bool
  | none => false
  | some s => s ≠ ""

/-- JS `String.prototype.trim`: strip leading and trailing whitespace
(modelled over the common whitespace characters; structural so that it
evaluates by reduction). -/
def jsTrim (s : String) : String :=
  ⟨((s.data.dropWhile Char.isWhitespace).reverse.dropWhile Char.isWhitespace).reverse⟩

/-- JS object property assignment `m[k] = v`: overwrite if the key exists,
otherwise add a new entry. -/
def mapSet (m : List (String × Content)) (k : String) (v : Content) :
    List (String × Content) :=
  if m.any (fun p => p.1 == k) then
    m.map (fun p => if p.1 == k then (k, v) else p)
  else m ++ [(k, v)]

/-- The body of a non-ok generation response: a JSON object with a `detail`
string, a JSON object without one, or a body on which `response.json()`
throws (e.g. an empty body); `errMsg` is the engine's SyntaxError message. -/
inductive Body where
  | jsonDetail (detail : String)
  | jsonNoDetail
  | unparseable (errMsg : String)
deriving DecidableEq, Repr

/-- Outcome of a `POST /generate` call: a 200 response with parsed
`{session_id, generated_text}`, a non-ok response with some body, or a
rejected fetch with the rejection's message. -/
inductive Outcome where
  | ok (sessionId : String) (generatedText : String)
  | httpError (status : Nat) (body : Body)
  | networkFailure (message : String)
deriving DecidableEq, Repr

/-- Outcome of an export (`/download-package`, `/download-docx`) call. -/
inductive DlOutcome where
  | ok
  | httpError (body : Body)
  | networkFailure (message : String)
deriving DecidableEq, Repr

/-- Request body of a generation call: `{prompt, mappings, category}`. -/
structure RequestBody where
  prompt : String
  mappings : List (String × Content)
  category : String
deriving DecidableEq, Repr

/-- Request body of an export call: `{session_id, markdown_content}`, tagged
with the endpoint it was sent to. -/
structure DlRequest where
  endpoint : String
  sessionId : String
  markdownContent : String
deriving DecidableEq, Repr

/-- A chat-box entry: its text, its sender class, and the content bound to
download buttons attached to it (if any). -/
structure ChatMessage where
  text : String
  sender : String
  downloadContent : Option String
deriving DecidableEq, Repr

/-- The Placeholder Map invariant of the spec's data model: entries under an
image token hold a base64 data URL. -/
def imgEntriesAreDataUrls (m : List (String × Content)) : Bool :=
  m.all fun kv => !(startsWithStr kv.1 "[[img") || kv.2.isDataUrl

theorem imgEntriesAreDataUrls_mapSet (m : List (String × Content)) (k : String)
    (v : Content) (h : imgEntriesAreDataUrls m = true)
    (hv : startsWithStr k "[[img" = true → v.isDataUrl = true) :
    imgEntriesAreDataUrls (mapSet m k v) = true := by
  unfold imgEntriesAreDataUrls at *
  unfold mapSet
  by_cases hmem : m.any (fun p => p.1 == k)
  · rw [if_pos hmem]
    rw [List.all_eq_true] at h ⊢
    intro kv hkv
    rw [List.mem_map] at hkv
    obtain ⟨p, hp, hpe⟩ := hkv
    by_cases hpk : p.1 == k
    · rw [if_pos hpk] at hpe
      subst hpe
      cases hsw : startsWithStr k "[[img" with
      | false => simp [hsw]
      | true => simp [hsw, hv hsw]
    · rw [if_neg hpk] at hpe
      subst hpe
      exact h p hp
  · rw [if_neg hmem]
    rw [List.all_append, h, Bool.true_and]
    cases hsw : startsWithStr k "[[img" with
    | false => simp [hsw]
    | true => simp [hsw, hv hsw]

/-! ### Frontend1A — first script of src/unnamed/part_000

Eager-reset variant with a send-button guard.  Presentational effects
(focus mode, loading animation, scrolling, element focus) are omitted;
every state-bearing effect is modelled. -/

namespace Frontend1A

/-- The closure state of the first script of src/unnamed/part_000 together
with the DOM values it reads and writes. -/
structure State where
  /-- `messageInput.value` -/
  messageValue : String
  /-- `messageInput.selectionStart` (the live caret) -/
  selectionStart : Nat
  /-- `lastCursorPosition` (recorded when the input loses focus) -/
  lastCursorPosition : Nat
  /-- `placeholderMap` -/
  placeholderMap : List (String × Content)
  /-- `codeCounter` -/
  codeCounter : Nat
  /-- `imgCounter` -/
  imgCounter : Nat
  /-- children of `image-previews`: (img src, label text) -/
  imagePreviewContainer : List (Content × String)
  /-- children of `code-previews`: (pre text, label text) -/
  codePreviewContainer : List (String × String)
  /-- `codeInput.value` (the modal textarea) -/
  codeInputValue : String
  /-- whether `code-modal` is displayed -/
  codeModalOpen : Bool
  /-- `categorySelect.value` -/
  categoryValue : String
  /-- `currentSessionId` -/
  currentSessionId : Option String
  /-- children of `chat-box` -/
  chatBox : List ChatMessage
  /-- `sendButton.disabled` -/
  sendButtonDisabled : Bool
  /-- log of issued `POST /generate` requests -/
  fetchLog : List RequestBody
  /-- log of issued export requests -/
  dlFetchLog : List DlRequest
  /-- `alert(...)` notices shown to the user -/
  alerts : List String
  /-- files saved to the user's device -/
  savedFiles : List String
deriving DecidableEq, Repr

/-- The token mint for images, line 183: `` `[[img${imgCounter++}]]` ``. -/
def mintImg (st : State) : String × State :=
  ("[[img" ++ Nat.repr st.imgCounter ++ "]]", { st with imgCounter := st.imgCounter + 1 })

/-- The token mint for code, line 164: `` `[[code${codeCounter++}]]` ``. -/
def mintCode (st : State) : String × State :=
  ("[[code" ++ Nat.repr st.codeCounter ++ "]]", { st with codeCounter := st.codeCounter + 1 })

/-- `insertPlaceholder` (lines 195-202): splice the token into the input's
value at `position` (`text.substring(0, position) + placeholder +
text.substring(position)`; both `substring` halves clamp exactly like
`String.take`/`String.drop`), move the caret to `position +
placeholder.length` via `setSelectionRange`, and record it in
`lastCursorPosition`. -/
def insertPlaceholder (st : State) (placeholder : String) (position : Nat) : State :=
  let text := st.messageValue
  let newCursorPos := position + placeholder.length
  { st with
    messageValue := text.take position ++ placeholder ++ text.drop position
    selectionStart := newCursorPos
    lastCursorPosition := newCursorPos }

/-- `addImagePreview` (lines 204-214): append a preview element. -/
def addImagePreview (st : State) (url : Content) (placeholder : String) : State :=
  { st with imagePreviewContainer := st.imagePreviewContainer ++ [(url, placeholder)] }

/-- `addCodePreview` (lines 216-226): append a preview element. -/
def addCodePreview (st : State) (code : String) (placeholder : String) : State :=
  { st with codePreviewContainer := st.codePreviewContainer ++ [(code, placeholder)] }

/-- The body of `reader.onload` in `handlePaste` (lines 181-188), run after
`reader.readAsDataURL(blob)` completed: the result string `base64Url` is a
base64 data URL for `blob`.  Mint a token, register the content, splice the
token at the live caret, and add a preview. -/
def handlePasteOnload (st : State) (blob : Nat) : State :=
  let base64Url := Content.dataUrl blob
  let (placeholder, st) := mintImg st
  let st := { st with placeholderMap := mapSet st.placeholderMap placeholder base64Url }
  let st := insertPlaceholder st placeholder st.selectionStart
  addImagePreview st base64Url placeholder

/-- `addCodeFromModal` (lines 160-172). -/
def addCodeFromModal (st : State) : State :=
  let codeText := st.codeInputValue
  if jsTrim codeText = "" then st
  else
    let (placeholder, st) := mintCode st
    let st := { st with placeholderMap := mapSet st.placeholderMap placeholder (Content.rawText codeText) }
    let st := insertPlaceholder st placeholder st.lastCursorPosition
    let st := addCodePreview st codeText placeholder
    { st with codeInputValue := "", codeModalOpen := false }

/-- The message of the `Error` thrown for a non-ok response (lines 127-135):
`response.json()` is wrapped in its own try/catch, so an unparseable body
leaves `errorData = {}`; then `errorData.detail || 'An unknown error
occurred.'` falls back whenever `detail` is absent or falsy (the empty
string is falsy). -/
def errorMessage : Body → String
  | .jsonDetail d => if d = "" then "An unknown error occurred." else d
  | .jsonNoDetail => "An unknown error occurred."
  | .unparseable _ => "An unknown error occurred."

/-- `appendMessage` (lines 228-235). -/
def appendMessage (st : State) (text sender : String) : State :=
  { st with chatBox := st.chatBox ++ [{ text := text, sender := sender, downloadContent := none }] }

/-- `sendMessage` (lines 95-158).  The success branch appends a `Done!` bot
message and attaches download buttons bound to `data.generated_text`
(`addDownloadButtons`); the catch branch appends `Error: ` followed by the
thrown message.  Lines 152-157 then reset the registry unconditionally. -/
def sendMessage (st : State) (outcome : Outcome) : State :=
  if st.sendButtonDisabled then st
  else
    let st := { st with sendButtonDisabled := true }
    let messageText := jsTrim st.messageValue
    if messageText = "" then { st with sendButtonDisabled := false }
    else
      let st := appendMessage st messageText "user"
      let st := { st with messageValue := "" }
      let st := { st with fetchLog := st.fetchLog ++
        [({ prompt := messageText, mappings := st.placeholderMap,
            category := st.categoryValue } : RequestBody)] }
      let st : State :=
        match outcome with
        | .ok sessionId generatedText =>
            let st := { st with currentSessionId := some sessionId }
            { st with chatBox := st.chatBox ++
              [{ text := "Done!", sender := "bot", downloadContent := some generatedText }] }
        | .httpError _ body =>
            appendMessage st ("Error: " ++ errorMessage body) "bot"
        | .networkFailure msg =>
            appendMessage st ("Error: " ++ msg) "bot"
      let st := { st with sendButtonDisabled := false }
      { st with placeholderMap := [], codeCounter := 1, imgCounter := 1,
                imagePreviewContainer := [], codePreviewContainer := [] }

/-- `downloadPackage` (lines 280-310): with no truthy session identifier,
alert and return before any fetch; otherwise POST to `/download-package`
and either save `writeup_package.zip` or alert on a non-ok response or a
rejected fetch. -/
def downloadPackage (st : State) (content : String) (outcome : DlOutcome) : State :=
  if jsTruthy st.currentSessionId = false then
    { st with alerts := st.alerts ++ ["No session ID found. Please generate a writeup first."] }
  else
    let st := { st with dlFetchLog := st.dlFetchLog ++
      [({ endpoint := "/download-package", sessionId := st.currentSessionId.getD "",
          markdownContent := content } : DlRequest)] }
    match outcome with
    | .ok => { st with savedFiles := st.savedFiles ++ ["writeup_package.zip"] }
    | .httpError _ => { st with alerts := st.alerts ++ ["Failed to download package."] }
    | .networkFailure _ => { st with alerts := st.alerts ++ ["Failed to download package."] }

/-- `downloadDocx` (lines 312-342), analogous to `downloadPackage`. -/
def downloadDocx (st : State) (content : String) (outcome : DlOutcome) : State :=
  if jsTruthy st.currentSessionId = false then
    { st with alerts := st.alerts ++ ["No session ID found. Please generate a writeup first."] }
  else
    let st := { st with dlFetchLog := st.dlFetchLog ++
      [({ endpoint := "/download-docx", sessionId := st.currentSessionId.getD "",
          markdownContent := content } : DlRequest)] }
    match outcome with
    | .ok => { st with savedFiles := st.savedFiles ++ ["writeup.docx"] }
    | .httpError _ => { st with alerts := st.alerts ++ ["Failed to download .docx file."] }
    | .networkFailure _ => { st with alerts := st.alerts ++ ["Failed to download .docx file."] }

/-- Tokens returned by `n` consecutive image mints (image pastes) with no
intervening removal or reset. -/
def mintImgSeq (st : State) : Nat → List String
  | 0 => []
  | n + 1 => (mintImg st).1 :: mintImgSeq (mintImg st).2 n

/-- Tokens returned by `n` consecutive code mints. -/
def mintCodeSeq (st : State) : Nat → List String
  | 0 => []
  | n + 1 => (mintCode st).1 :: mintCodeSeq (mintCode st).2 n

end Frontend1A

/-! ### Frontend1B — second script of src/unnamed/part_000

Eager-reset variant without a send guard; pasted images are stored as
temporary object URLs (`URL.createObjectURL`), the code modal adds no
preview, there is no session identifier, and the only export is a purely
local markdown download. -/

namespace Frontend1B

/-- The closure state of the second script of src/unnamed/part_000.  It
declares no `currentSessionId` and no code-preview container. -/
structure State where
  /-- `messageInput.value` -/
  messageValue : String
  /-- `messageInput.selectionStart` -/
  selectionStart : Nat
  /-- `lastCursorPosition` -/
  lastCursorPosition : Nat
  /-- `placeholderMap` -/
  placeholderMap : List (String × Content)
  /-- `codeCounter` -/
  codeCounter : Nat
  /-- `imgCounter` -/
  imgCounter : Nat
  /-- children of `image-previews` -/
  imagePreviewContainer : List (Content × String)
  /-- `codeInput.value` -/
  codeInputValue : String
  /-- whether `code-modal` is displayed -/
  codeModalOpen : Bool
  /-- `categorySelect.value` -/
  categoryValue : String
  /-- children of `chat-box` -/
  chatBox : List ChatMessage
  /-- log of issued `POST /generate` requests -/
  fetchLog : List RequestBody
deriving DecidableEq, Repr

/-- The token mint for images, line 464: `` `[[img${imgCounter++}]]` ``. -/
def mintImg (st : State) : String × State :=
  ("[[img" ++ Nat.repr st.imgCounter ++ "]]", { st with imgCounter := st.imgCounter + 1 })

/-- The token mint for code, line 449: `` `[[code${codeCounter++}]]` ``. -/
def mintCode (st : State) : String × State :=
  ("[[code" ++ Nat.repr st.codeCounter ++ "]]", { st with codeCounter := st.codeCounter + 1 })

/-- `insertPlaceholder` (lines 475-482), identical to the first script's. -/
def insertPlaceholder (st : State) (placeholder : String) (position : Nat) : State :=
  let text := st.messageValue
  let newCursorPos := position + placeholder.length
  { st with
    messageValue := text.take position ++ placeholder ++ text.drop position
    selectionStart := newCursorPos
    lastCursorPosition := newCursorPos }

/-- `addImagePreview` (lines 484-494). -/
def addImagePreview (st : State) (url : Content) (placeholder : String) : State :=
  { st with imagePreviewContainer := st.imagePreviewContainer ++ [(url, placeholder)] }

/-- The per-image-item body of `handlePaste` (lines 461-470): mint a token,
store `URL.createObjectURL(blob)` — a temporary object URL, not a data
URL — in the map, splice the token at the live caret, add a preview. -/
def handlePasteOnload (st : State) (blob : Nat) : State :=
  let (placeholder, st) := mintImg st
  let tempUrl := Content.objectUrl blob
  let st := { st with placeholderMap := mapSet st.placeholderMap placeholder tempUrl }
  let st := insertPlaceholder st placeholder st.selectionStart
  addImagePreview st tempUrl placeholder

/-- `addCodeFromModal` (lines 445-456): as in the first script but without a
code preview. -/
def addCodeFromModal (st : State) : State :=
  let codeText := st.codeInputValue
  if jsTrim codeText = "" then st
  else
    let (placeholder, st) := mintCode st
    let st := { st with placeholderMap := mapSet st.placeholderMap placeholder (Content.rawText codeText) }
    let st := insertPlaceholder st placeholder st.lastCursorPosition
    { st with codeInputValue := "", codeModalOpen := false }

/-- `appendMessage` (lines 496-506). -/
def appendMessage (st : State) (text sender : String) : State :=
  { st with chatBox := st.chatBox ++ [{ text := text, sender := sender, downloadContent := none }] }

/-- `sendMessage` (lines 397-443).  The transient `Thinking...` message is
appended and removed again whenever the function runs to completion, so it
does not appear in the final state and is omitted.  On success
(`response.ok`, line 421 removes the `Thinking...` node inside the try),
the response's `generated_text` is displayed with a local `.md` download
button bound to it — no session identifier exists in this script — and
lines 438-442 reset the registry.  On a fetch rejection the catch runs
with the `Thinking...` node still present: line 433 removes it, line 434
appends `Error: ` followed by the rejection's message, and the reset runs.
On a non-ok response, however, line 421 has already removed the
`Thinking...` node when the thrown error reaches the catch, so the
catch's own `chatBox.removeChild(thinkingMessage)` (line 433) throws a
NotFoundError: the error message of line 434 is never appended, the reset
of lines 438-442 is skipped, and the async function aborts — the state
keeps whatever the registry held, with only the user message appended, the
input cleared and the request logged. -/
def sendMessage (st : State) (outcome : Outcome) : State :=
  let messageText := jsTrim st.messageValue
  if messageText = "" then st
  else
    let st := appendMessage st messageText "user"
    let st := { st with messageValue := "" }
    let st := { st with fetchLog := st.fetchLog ++
      [({ prompt := messageText, mappings := st.placeholderMap,
          category := st.categoryValue } : RequestBody)] }
    match outcome with
    | .ok _ generatedText =>
        let st : State := { st with chatBox := st.chatBox ++
          [{ text := generatedText, sender := "bot", downloadContent := some generatedText }] }
        ({ st with placeholderMap := [], codeCounter := 1, imgCounter := 1,
                   imagePreviewContainer := [] } : State)
    | .httpError _ _ => st
    | .networkFailure msg =>
        let st : State := appendMessage st ("Error: " ++ msg) "bot"
        ({ st with placeholderMap := [], codeCounter := 1, imgCounter := 1,
                   imagePreviewContainer := [] } : State)

/-- Tokens returned by `n` consecutive image mints. -/
def mintImgSeq (st : State) : Nat → List String
  | 0 => []
  | n + 1 => (mintImg st).1 :: mintImgSeq (mintImg st).2 n

end Frontend1B

/-! ### Frontend2 — src/frontend2/script.js

Renumber-on-delete variant: attachments live as mapping items in a
container; mappings are assembled only when Generate is clicked; deleting
an item renumbers the remaining items of its type. -/

namespace Frontend2

/-- The kind of form field a mapping item holds: image items get an
`input[type=file]`, code items a `textarea`. -/
inductive FieldKind where
  | fileInput
  | textArea
deriving DecidableEq, Repr

/-- One `.mapping-item` div: its label text, the field's
`data-placeholder` attribute, and the field's current value (`fileContent`
for file inputs, `textContent` for textareas). -/
structure MappingItem where
  kind : FieldKind
  label : String
  dataPlaceholder : String
  fileContent : Option Nat
  textContent : String
deriving DecidableEq, Repr

/-- The closure state of src/frontend2/script.js plus the DOM it touches. -/
structure State where
  /-- children of `mappings-container` in document order -/
  items : List MappingItem
  /-- `imageCounter` -/
  imageCounter : Nat
  /-- `codeCounter` -/
  codeCounter : Nat
  /-- `prompt.value` -/
  promptValue : String
  /-- `category.value` -/
  categoryValue : String
  /-- `output.textContent` -/
  outputText : String
  /-- `currentSessionId` -/
  currentSessionId : Option String
  /-- `download-zip-btn` enabled -/
  zipEnabled : Bool
  /-- `download-docx-btn` enabled -/
  docxEnabled : Bool
  /-- log of issued `POST /generate` requests -/
  fetchLog : List RequestBody
  /-- log of issued export requests -/
  dlFetchLog : List DlRequest
  /-- `alert(...)` notices shown to the user -/
  alerts : List String
  /-- files saved to the user's device -/
  savedFiles : List String
deriving DecidableEq, Repr

/-- The loop body of `reindexPlaceholders` (lines 18-28): walk the mapping
items in document order; each item whose field's `data-placeholder` starts
with `[[<type>` gets the fresh label `[[<type><counter++>]]` written to both
its label and its `data-placeholder`. Returns the new items and the final
counter value. -/
def reindexAux (t : String) (counter : Nat) : List MappingItem → List MappingItem × Nat
  | [] => ([], counter)
  | item :: rest =>
    if startsWithStr item.dataPlaceholder ("[[" ++ t) then
      let newPlaceholder := "[[" ++ t ++ Nat.repr counter ++ "]]"
      let r := reindexAux t (counter + 1) rest
      ({ item with label := newPlaceholder, dataPlaceholder := newPlaceholder } :: r.1, r.2)
    else
      let r := reindexAux t counter rest
      (item :: r.1, r.2)

/-- `reindexPlaceholders(type)` (lines 18-34): renumber from 1 and store the
final counter back into `imageCounter` or `codeCounter` per the type. -/
def reindexPlaceholders (t : String) (st : State) : State :=
  let r := reindexAux t 1 st.items
  { st with items := r.1
            imageCounter := if t = "img" then r.2 else st.imageCounter
            codeCounter := if t = "code" then r.2 else st.codeCounter }

/-- The token mint for images, line 47: `` `[[img${imageCounter++}]]` ``. -/
def mintImg (st : State) : String × State :=
  ("[[img" ++ Nat.repr st.imageCounter ++ "]]", { st with imageCounter := st.imageCounter + 1 })

/-- The token mint for code, line 92: `` `[[code${codeCounter++}]]` ``. -/
def mintCode (st : State) : String × State :=
  ("[[code" ++ Nat.repr st.codeCounter ++ "]]", { st with codeCounter := st.codeCounter + 1 })

/-- `addImageBtn` click handler (lines 46-89): mint an image token and
append a mapping item holding an empty file input labelled with it. -/
def addImageItemClick (st : State) : State :=
  let (placeholder, st) := mintImg st
  { st with items := st.items ++
    [{ kind := .fileInput, label := placeholder, dataPlaceholder := placeholder,
       fileContent := none, textContent := "" }] }

/-- `addCodeBtn` click handler (lines 91-127): mint a code token and append
a mapping item holding an empty textarea labelled with it. -/
def addCodeItemClick (st : State) : State :=
  let (placeholder, st) := mintCode st
  { st with items := st.items ++
    [{ kind := .textArea, label := placeholder, dataPlaceholder := placeholder,
       fileContent := none, textContent := "" }] }

/-- The `deleteBtn` click handler attached to each item (lines 57-60 and
102-105): remove the item's div, then reindex the type the item was created
as (`img` for image items, `code` for code items, fixed in the closure). -/
def deleteItemClick (st : State) (i : Nat) (t : String) : State :=
  reindexPlaceholders t { st with items := st.items.eraseIdx i }

/-- The mappings object assembled by the `generateBtn` handler
(lines 135-157): every textarea contributes its raw value under its
`data-placeholder`; every file input with a selected file contributes the
`FileReader.readAsDataURL` result — a base64 data URL — under its
`data-placeholder` (assigned after the awaited reads, hence last). -/
def buildMappings (items : List MappingItem) : List (String × Content) :=
  let m := (items.filter (fun it => it.kind == FieldKind.textArea)).foldl
    (fun m it => mapSet m it.dataPlaceholder (Content.rawText it.textContent)) []
  (items.filter (fun it => it.kind == FieldKind.fileInput && it.fileContent.isSome)).foldl
    (fun m it => mapSet m it.dataPlaceholder (Content.dataUrl (it.fileContent.getD 0))) m

/-- The message of the `Error` thrown for a non-ok generate response
(lines 165-168): `error.detail || 'Failed to generate writeup.'`; an
unparseable body makes `response.json()` itself throw, so the engine's
SyntaxError message reaches the catch. -/
def errorMessage : Body → String
  | .jsonDetail d => if d = "" then "Failed to generate writeup." else d
  | .jsonNoDetail => "Failed to generate writeup."
  | .unparseable m => m

/-- `generateBtn` click handler (lines 129-182). -/
def generateClick (st : State) (outcome : Outcome) : State :=
  let st := { st with outputText := "Generating..." }
  let mappings := buildMappings st.items
  let st := { st with fetchLog := st.fetchLog ++
    [({ prompt := st.promptValue, mappings := mappings,
        category := st.categoryValue } : RequestBody)] }
  match outcome with
  | .ok sessionId generatedText =>
      { st with outputText := generatedText, currentSessionId := some sessionId,
                zipEnabled := true, docxEnabled := true }
  | .httpError _ body => { st with outputText := "Error: " ++ errorMessage body }
  | .networkFailure msg => { st with outputText := "Error: " ++ msg }

/-- The message of the `Error` alerted for a failed export response
(lines 197-200): `error.detail || 'Download failed'`. -/
def downloadErrorMessage : Body → String
  | .jsonDetail d => if d = "" then "Download failed" else d
  | .jsonNoDetail => "Download failed"
  | .unparseable m => m

/-- `handleDownload(url, fileName)` (lines 184-215): with no truthy session
identifier it returns silently — no fetch, no notice.  Otherwise it POSTs
`{session_id, markdown_content}` and saves the file or alerts. -/
def handleDownload (st : State) (endpoint fileName : String) (outcome : DlOutcome) : State :=
  if jsTruthy st.currentSessionId = false then st
  else
    let st := { st with dlFetchLog := st.dlFetchLog ++
      [({ endpoint := endpoint, sessionId := st.currentSessionId.getD "",
          markdownContent := st.outputText } : DlRequest)] }
    match outcome with
    | .ok => { st with savedFiles := st.savedFiles ++ [fileName] }
    | .httpError body =>
        { st with alerts := st.alerts ++ ["Error: " ++ downloadErrorMessage body] }
    | .networkFailure msg =>
        { st with alerts := st.alerts ++ ["Error: " ++ msg] }

/-- Tokens returned by `n` consecutive image mints. -/
def mintImgSeq (st : State) : Nat → List String
  | 0 => []
  | n + 1 => (mintImg st).1 :: mintImgSeq (mintImg st).2 n

/-- Tokens returned by `n` consecutive code mints. -/
def mintCodeSeq (st : State) : Nat → List String
  | 0 => []
  | n + 1 => (mintCode st).1 :: mintCodeSeq (mintCode st).2 n

end Frontend2

/-! ### Generic splice lemmas -/

theorem string_length_data (s : String) : s.length = s.data.length := rfl

theorem splice_length (text tok : String) (pos : Nat) (h : pos ≤ text.length) :
    (text.take pos ++ tok ++ text.drop pos).length = text.length + tok.length := by
  simp only [string_length_data, String.data_append, String.data_take, String.data_drop,
    List.length_append, List.length_take, List.length_drop]
  have h' : pos ≤ text.data.length := h
  omega

theorem splice_middle (text tok : String) (pos : Nat) (h : pos ≤ text.length) :
    ((text.take pos ++ tok ++ text.drop pos).drop pos).take tok.length = tok := by
  apply String.ext
  rw [String.data_take, String.data_drop, String.data_append, String.data_append,
    String.data_take, String.data_drop, List.append_assoc, List.drop_left' ?hl]
  case hl =>
    rw [List.length_take]
    have h' : pos ≤ text.data.length := h
    omega
  exact List.take_left' rfl

theorem splice_left (text tok : String) (pos : Nat) (h : pos ≤ text.length) :
    (text.take pos ++ tok ++ text.drop pos).take pos = text.take pos := by
  apply String.ext
  rw [String.data_take, String.data_take, String.data_append, String.data_append,
    String.data_take, String.data_drop, List.append_assoc]
  apply List.take_left'
  rw [List.length_take]
  have h' : pos ≤ text.data.length := h
  omega

theorem splice_right (text tok : String) (pos : Nat) (h : pos ≤ text.length) :
    (text.take pos ++ tok ++ text.drop pos).drop (pos + tok.length) = text.drop pos := by
  apply String.ext
  rw [String.data_drop, String.data_drop, String.data_append, String.data_append,
    String.data_take, String.data_drop, List.append_assoc, ← List.append_assoc]
  apply List.drop_left'
  rw [List.length_append, List.length_take, ← string_length_data, ← string_length_data]
  omega

/-! ### Sample states for witnesses -/

/-- A fresh Frontend1A page state as established on DOMContentLoaded, with a
short prompt typed and category `web` selected. -/
def sampleA : Frontend1A.State :=
  { messageValue := "hi", selectionStart := 0, lastCursorPosition := 0,
    placeholderMap := [], codeCounter := 1, imgCounter := 1,
    imagePreviewContainer := [], codePreviewContainer := [],
    codeInputValue := "", codeModalOpen := false, categoryValue := "web",
    currentSessionId := none, chatBox := [], sendButtonDisabled := false,
    fetchLog := [], dlFetchLog := [], alerts := [], savedFiles := [] }

/-- A fresh Frontend1B page state with a short prompt typed. -/
def sampleB : Frontend1B.State :=
  { messageValue := "hi", selectionStart := 0, lastCursorPosition := 0,
    placeholderMap := [], codeCounter := 1, imgCounter := 1,
    imagePreviewContainer := [], codeInputValue := "", codeModalOpen := false,
    categoryValue := "web", chatBox := [], fetchLog := [] }

/-- A fresh Frontend2 page state. -/
def sampleF : Frontend2.State :=
  { items := [], imageCounter := 1, codeCounter := 1, promptValue := "hi",
    categoryValue := "web", outputText := "", currentSessionId := none,
    zipEnabled := false, docxEnabled := false, fetchLog := [], dlFetchLog := [],
    alerts := [], savedFiles := [] }

/-! ### Claims -/

/-- Claim C1: for every text, token and position within the text,
`insertPlaceholder` performs a pure splice — the new input value has length
`text.length + token.length`, its substring from `position` to
`position + token.length` is the token, the prefix before `position` and
the suffix after it are unchanged — and the new caret offset (both the
selection set via `setSelectionRange` and the recorded
`lastCursorPosition`) is `position + token.length`.  Proved for the
identical helper of both scripts of src/unnamed/part_000. -/
theorem claim_C1 (stA : Frontend1A.State) (stB : Frontend1B.State)
    (tokA tokB : String) (posA posB : Nat)
    (hA : posA ≤ stA.messageValue.length) (hB : posB ≤ stB.messageValue.length) :
    ((Frontend1A.insertPlaceholder stA tokA posA).messageValue.length
        = stA.messageValue.length + tokA.length ∧
      ((Frontend1A.insertPlaceholder stA tokA posA).messageValue.drop posA).take tokA.length
        = tokA ∧
      (Frontend1A.insertPlaceholder stA tokA posA).messageValue.take posA
        = stA.messageValue.take posA ∧
      (Frontend1A.insertPlaceholder stA tokA posA).messageValue.drop (posA + tokA.length)
        = stA.messageValue.drop posA ∧
      (Frontend1A.insertPlaceholder stA tokA posA).selectionStart = posA + tokA.length ∧
      (Frontend1A.insertPlaceholder stA tokA posA).lastCursorPosition = posA + tokA.length) ∧
    ((Frontend1B.insertPlaceholder stB tokB posB).messageValue.length
        = stB.messageValue.length + tokB.length ∧
      ((Frontend1B.insertPlaceholder stB tokB posB).messageValue.drop posB).take tokB.length
        = tokB ∧
      (Frontend1B.insertPlaceholder stB tokB posB).messageValue.take posB
        = stB.messageValue.take posB ∧
      (Frontend1B.insertPlaceholder stB tokB posB).messageValue.drop (posB + tokB.length)
        = stB.messageValue.drop posB ∧
      (Frontend1B.insertPlaceholder stB tokB posB).selectionStart = posB + tokB.length ∧
      (Frontend1B.insertPlaceholder stB tokB posB).lastCursorPosition = posB + tokB.length) :=
  ⟨⟨splice_length _ _ _ hA, splice_middle _ _ _ hA, splice_left _ _ _ hA,
      splice_right _ _ _ hA, rfl, rfl⟩,
    ⟨splice_length _ _ _ hB, splice_middle _ _ _ hB, splice_left _ _ _ hB,
      splice_right _ _ _ hB, rfl, rfl⟩⟩

theorem claim_C1_witness :
    (1 ≤ ({ sampleA with messageValue := "ab" } : Frontend1A.State).messageValue.length ∧
      1 ≤ ({ sampleB with messageValue := "cd" } : Frontend1B.State).messageValue.length) ∧
    ((Frontend1A.insertPlaceholder { sampleA with messageValue := "ab" } "[[img1]]" 1).messageValue.length
        = ({ sampleA with messageValue := "ab" } : Frontend1A.State).messageValue.length + "[[img1]]".length ∧
      ((Frontend1A.insertPlaceholder { sampleA with messageValue := "ab" } "[[img1]]" 1).messageValue.drop 1).take "[[img1]]".length
        = "[[img1]]" ∧
      (Frontend1A.insertPlaceholder { sampleA with messageValue := "ab" } "[[img1]]" 1).messageValue.take 1
        = ({ sampleA with messageValue := "ab" } : Frontend1A.State).messageValue.take 1 ∧
      (Frontend1A.insertPlaceholder { sampleA with messageValue := "ab" } "[[img1]]" 1).messageValue.drop (1 + "[[img1]]".length)
        = ({ sampleA with messageValue := "ab" } : Frontend1A.State).messageValue.drop 1 ∧
      (Frontend1A.insertPlaceholder { sampleA with messageValue := "ab" } "[[img1]]" 1).selectionStart = 1 + "[[img1]]".length ∧
      (Frontend1A.insertPlaceholder { sampleA with messageValue := "ab" } "[[img1]]" 1).lastCursorPosition = 1 + "[[img1]]".length) ∧
    ((Frontend1B.insertPlaceholder { sampleB with messageValue := "cd" } "[[code1]]" 1).messageValue.length
        = ({ sampleB with messageValue := "cd" } : Frontend1B.State).messageValue.length + "[[code1]]".length ∧
      ((Frontend1B.insertPlaceholder { sampleB with messageValue := "cd" } "[[code1]]" 1).messageValue.drop 1).take "[[code1]]".length
        = "[[code1]]" ∧
      (Frontend1B.insertPlaceholder { sampleB with messageValue := "cd" } "[[code1]]" 1).messageValue.take 1
        = ({ sampleB with messageValue := "cd" } : Frontend1B.State).messageValue.take 1 ∧
      (Frontend1B.insertPlaceholder { sampleB with messageValue := "cd" } "[[code1]]" 1).messageValue.drop (1 + "[[code1]]".length)
        = ({ sampleB with messageValue := "cd" } : Frontend1B.State).messageValue.drop 1 ∧
      (Frontend1B.insertPlaceholder { sampleB with messageValue := "cd" } "[[code1]]" 1).selectionStart = 1 + "[[code1]]".length ∧
      (Frontend1B.insertPlaceholder { sampleB with messageValue := "cd" } "[[code1]]" 1).lastCursorPosition = 1 + "[[code1]]".length) :=
  ⟨⟨by decide, by decide⟩,
    claim_C1 { sampleA with messageValue := "ab" } { sampleB with messageValue := "cd" }
      "[[img1]]" "[[code1]]" 1 1 (by decide) (by decide)⟩

/-! ### Token sequence lemmas for C3 -/

theorem tokenAppend_inj (p : String) (a b : Nat)
    (h : p ++ Nat.repr a ++ "]]" = p ++ Nat.repr b ++ "]]") : a = b := by
  have hd := congrArg String.data h
  simp only [String.data_append, List.append_assoc] at hd
  have h2 := List.append_cancel_left hd
  have h3 := List.append_cancel_right h2
  exact natRepr_injective a b (String.ext h3)

/-- The token list produced by `n` consecutive post-increment mints with
token prefix `p`, starting from counter value `c`. -/
def tokSeq (p : String) (c : Nat) : Nat → List String
  | 0 => []
  | n + 1 => (p ++ Nat.repr c ++ "]]") :: tokSeq p (c + 1) n

theorem tokSeq_eq_map (p : String) (c n : Nat) :
    tokSeq p c n = (List.range n).map (fun i => p ++ Nat.repr (c + i) ++ "]]") := by
  induction n generalizing c with
  | zero => rfl
  | succ k ih =>
    rw [tokSeq, ih, List.range_succ_eq_map, List.map_cons, List.map_map]
    congr 1
    apply List.map_congr_left
    intro i _
    show p ++ Nat.repr (c + 1 + i) ++ "]]" = p ++ Nat.repr (c + (i + 1)) ++ "]]"
    rw [show c + 1 + i = c + (i + 1) by omega]

theorem tokSeq_nodup (p : String) (c n : Nat) : (tokSeq p c n).Nodup := by
  rw [tokSeq_eq_map]
  refine (List.nodup_range n).map ?_
  intro a b hab
  have := tokenAppend_inj p (c + a) (c + b) hab
  omega

theorem mintImgSeqA_eq_tokSeq (st : Frontend1A.State) (n : Nat) :
    Frontend1A.mintImgSeq st n = tokSeq "[[img" st.imgCounter n := by
  induction n generalizing st with
  | zero => rfl
  | succ k ih =>
    rw [Frontend1A.mintImgSeq, tokSeq, ih]
    rfl

theorem mintCodeSeqA_eq_tokSeq (st : Frontend1A.State) (n : Nat) :
    Frontend1A.mintCodeSeq st n = tokSeq "[[code" st.codeCounter n := by
  induction n generalizing st with
  | zero => rfl
  | succ k ih =>
    rw [Frontend1A.mintCodeSeq, tokSeq, ih]
    rfl

theorem mintImgSeqF_eq_tokSeq (st : Frontend2.State) (n : Nat) :
    Frontend2.mintImgSeq st n = tokSeq "[[img" st.imageCounter n := by
  induction n generalizing st with
  | zero => rfl
  | succ k ih =>
    rw [Frontend2.mintImgSeq, tokSeq, ih]
    rfl

theorem mintCodeSeqF_eq_tokSeq (st : Frontend2.State) (n : Nat) :
    Frontend2.mintCodeSeq st n = tokSeq "[[code" st.codeCounter n := by
  induction n generalizing st with
  | zero => rfl
  | succ k ih =>
    rw [Frontend2.mintCodeSeq, tokSeq, ih]
    rfl

theorem tokSeq_one_eq (p : String) (n : Nat) :
    tokSeq p 1 n = (List.range n).map (fun i => p ++ Nat.repr (i + 1) ++ "]]") := by
  rw [tokSeq_eq_map]
  apply List.map_congr_left
  intro i _
  rw [show 1 + i = i + 1 by omega]

/-- Claim C3: starting from a fresh counter, `n` consecutive image mints
with no intervening removal or reset return exactly the tokens
`[[img1]], [[img2]], …, [[img<n>]]` in order — strictly increasing numbers
and no token value repeated — and the analogous property holds
independently for the code mint; proved for the paste mint of the first
part_000 script and for both mints of frontend2. -/
theorem claim_C3 (stA : Frontend1A.State) (stF : Frontend2.State) (n : Nat)
    (hA1 : stA.imgCounter = 1) (hA2 : stA.codeCounter = 1)
    (hF1 : stF.imageCounter = 1) (hF2 : stF.codeCounter = 1) :
    (Frontend1A.mintImgSeq stA n
        = (List.range n).map (fun i => "[[img" ++ Nat.repr (i + 1) ++ "]]") ∧
      (Frontend1A.mintImgSeq stA n).Nodup) ∧
    (Frontend1A.mintCodeSeq stA n
        = (List.range n).map (fun i => "[[code" ++ Nat.repr (i + 1) ++ "]]") ∧
      (Frontend1A.mintCodeSeq stA n).Nodup) ∧
    (Frontend2.mintImgSeq stF n
        = (List.range n).map (fun i => "[[img" ++ Nat.repr (i + 1) ++ "]]") ∧
      (Frontend2.mintImgSeq stF n).Nodup) ∧
    (Frontend2.mintCodeSeq stF n
        = (List.range n).map (fun i => "[[code" ++ Nat.repr (i + 1) ++ "]]") ∧
      (Frontend2.mintCodeSeq stF n).Nodup) := by
  refine ⟨⟨?_, ?_⟩, ⟨?_, ?_⟩, ⟨?_, ?_⟩, ⟨?_, ?_⟩⟩
  · rw [mintImgSeqA_eq_tokSeq, hA1, tokSeq_one_eq]
  · rw [mintImgSeqA_eq_tokSeq]
    exact tokSeq_nodup _ _ _
  · rw [mintCodeSeqA_eq_tokSeq, hA2, tokSeq_one_eq]
  · rw [mintCodeSeqA_eq_tokSeq]
    exact tokSeq_nodup _ _ _
  · rw [mintImgSeqF_eq_tokSeq, hF1, tokSeq_one_eq]
  · rw [mintImgSeqF_eq_tokSeq]
    exact tokSeq_nodup _ _ _
  · rw [mintCodeSeqF_eq_tokSeq, hF2, tokSeq_one_eq]
  · rw [mintCodeSeqF_eq_tokSeq]
    exact tokSeq_nodup _ _ _

theorem claim_C3_witness :
    (sampleA.imgCounter = 1 ∧ sampleA.codeCounter = 1 ∧
      sampleF.imageCounter = 1 ∧ sampleF.codeCounter = 1) ∧
    (Frontend1A.mintImgSeq sampleA 3
        = (List.range 3).map (fun i => "[[img" ++ Nat.repr (i + 1) ++ "]]") ∧
      (Frontend1A.mintImgSeq sampleA 3).Nodup) ∧
    (Frontend1A.mintCodeSeq sampleA 3
        = (List.range 3).map (fun i => "[[code" ++ Nat.repr (i + 1) ++ "]]") ∧
      (Frontend1A.mintCodeSeq sampleA 3).Nodup) ∧
    (Frontend2.mintImgSeq sampleF 3
        = (List.range 3).map (fun i => "[[img" ++ Nat.repr (i + 1) ++ "]]") ∧
      (Frontend2.mintImgSeq sampleF 3).Nodup) ∧
    (Frontend2.mintCodeSeq sampleF 3
        = (List.range 3).map (fun i => "[[code" ++ Nat.repr (i + 1) ++ "]]") ∧
      (Frontend2.mintCodeSeq sampleF 3).Nodup) :=
  ⟨⟨rfl, rfl, rfl, rfl⟩, claim_C3 sampleA sampleF 3 rfl rfl rfl rfl⟩

/-! ### Placeholder-map content lemmas for C4 -/

theorem startsWithStr_code_not_img (n : Nat) :
    startsWithStr ("[[code" ++ Nat.repr n ++ "]]") "[[img" = false := by
  unfold startsWithStr
  simp [String.data_append, List.isPrefixOf]

theorem startsWithStr_img_not_code (n : Nat) :
    startsWithStr ("[[img" ++ Nat.repr n ++ "]]") "[[code" = false := by
  unfold startsWithStr
  simp [String.data_append, List.isPrefixOf]

def Content.isRawText : Content → Bool
  | .rawText _ => true
  | _ => false

/-- The other half of the Placeholder Map invariant of the spec's data
model: entries under a code token hold the raw entered text. -/
def codeEntriesAreRawText (m : List (String × Content)) : Bool :=
  m.all fun kv => !(startsWithStr kv.1 "[[code") || kv.2.isRawText

theorem mapSet_all (p : String × Content → Bool) (m : List (String × Content))
    (k : String) (v : Content) (h : m.all p = true) (hv : p (k, v) = true) :
    (mapSet m k v).all p = true := by
  unfold mapSet
  by_cases hmem : m.any (fun q => q.1 == k)
  · rw [if_pos hmem]
    rw [List.all_eq_true] at h ⊢
    intro kv hkv
    rw [List.mem_map] at hkv
    obtain ⟨q, hq, he⟩ := hkv
    by_cases hqk : q.1 == k
    · rw [if_pos hqk] at he
      subst he
      exact hv
    · rw [if_neg hqk] at he
      subst he
      exact h q hq
  · rw [if_neg hmem, List.all_append, h, Bool.true_and]
    simpa using hv

theorem mem_mapSet (m : List (String × Content)) (k : String) (v : Content)
    (kv : String × Content) (h : kv ∈ mapSet m k v) : kv ∈ m ∨ kv = (k, v) := by
  unfold mapSet at h
  by_cases hmem : m.any (fun q => q.1 == k)
  · rw [if_pos hmem, List.mem_map] at h
    obtain ⟨q, hq, he⟩ := h
    by_cases hqk : q.1 == k
    · rw [if_pos hqk] at he
      exact Or.inr he.symm
    · rw [if_neg hqk] at he
      subst he
      exact Or.inl hq
  · rw [if_neg hmem, List.mem_append] at h
    rcases h with h | h
    · exact Or.inl h
    · exact Or.inr (by simpa using h)

theorem mem_foldl_mapSet {α : Type} (key : α → String) (val : α → Content)
    (l : List α) (m0 : List (String × Content)) (kv : String × Content)
    (h : kv ∈ l.foldl (fun m a => mapSet m (key a) (val a)) m0) :
    kv ∈ m0 ∨ ∃ a ∈ l, kv = (key a, val a) := by
  induction l generalizing m0 with
  | nil => exact Or.inl h
  | cons a rest ih =>
    simp only [List.foldl_cons] at h
    rcases ih _ h with h2 | h2
    · rcases mem_mapSet _ _ _ _ h2 with h3 | h3
      · exact Or.inl h3
      · exact Or.inr ⟨a, by simp, h3⟩
    · obtain ⟨b, hb, he⟩ := h2
      exact Or.inr ⟨b, by simp [hb], he⟩

theorem codeEntries_foldl_rawText (l : List Frontend2.MappingItem)
    (m : List (String × Content)) (hm : codeEntriesAreRawText m = true) :
    codeEntriesAreRawText
      (l.foldl (fun m it => mapSet m it.dataPlaceholder (Content.rawText it.textContent)) m)
      = true := by
  induction l generalizing m with
  | nil => exact hm
  | cons it rest ih =>
    simp only [List.foldl_cons]
    apply ih
    unfold codeEntriesAreRawText at hm ⊢
    apply mapSet_all _ _ _ _ hm
    simp [Content.isRawText]

theorem codeEntries_foldl_dataUrl (l : List Frontend2.MappingItem)
    (m : List (String × Content)) (hm : codeEntriesAreRawText m = true)
    (hl : ∀ it ∈ l, startsWithStr it.dataPlaceholder "[[code" = false) :
    codeEntriesAreRawText
      (l.foldl
        (fun m it => mapSet m it.dataPlaceholder (Content.dataUrl (it.fileContent.getD 0))) m)
      = true := by
  induction l generalizing m with
  | nil => exact hm
  | cons it rest ih =>
    simp only [List.foldl_cons]
    apply ih
    · unfold codeEntriesAreRawText at hm ⊢
      apply mapSet_all _ _ _ _ hm
      simp [Content.isRawText, hl it (by simp)]
    · intro x hx
      exact hl x (by simp [hx])

theorem imgEntries_foldl_rawText (l : List Frontend2.MappingItem)
    (m : List (String × Content)) (hm : imgEntriesAreDataUrls m = true)
    (hl : ∀ it ∈ l, startsWithStr it.dataPlaceholder "[[img" = false) :
    imgEntriesAreDataUrls
      (l.foldl (fun m it => mapSet m it.dataPlaceholder (Content.rawText it.textContent)) m)
      = true := by
  induction l generalizing m with
  | nil => exact hm
  | cons it rest ih =>
    simp only [List.foldl_cons]
    apply ih
    · apply imgEntriesAreDataUrls_mapSet _ _ _ hm
      intro hsw
      rw [hl it (by simp)] at hsw
      cases hsw
    · intro x hx
      exact hl x (by simp [hx])

theorem imgEntries_foldl_dataUrl (l : List Frontend2.MappingItem)
    (m : List (String × Content)) (hm : imgEntriesAreDataUrls m = true) :
    imgEntriesAreDataUrls
      (l.foldl
        (fun m it => mapSet m it.dataPlaceholder (Content.dataUrl (it.fileContent.getD 0))) m)
      = true := by
  induction l generalizing m with
  | nil => exact hm
  | cons it rest ih =>
    simp only [List.foldl_cons]
    exact ih _ (imgEntriesAreDataUrls_mapSet _ _ _ hm (fun _ => rfl))

/-- Claim C4 counterexample: the claim asserts that in every variant an
image-token entry of the Placeholder Map holds a base64 data URL, but the
second part_000 script's paste handler (lines 461-470) stores
`URL.createObjectURL(blob)` — a temporary object URL — so after a single
image paste into a fresh page its map already violates the invariant. -/
theorem claim_C4_counterexample :
    (Frontend1B.handlePasteOnload sampleB 0).placeholderMap
        = [("[[img1]]", Content.objectUrl 0)] ∧
    imgEntriesAreDataUrls (Frontend1B.handlePasteOnload sampleB 0).placeholderMap = false := by
  constructor
  · decide
  · decide

/-- A mapping-item list as frontend2's two add buttons create it: one image
item with a selected file and one code item. -/
def sampleItems : List Frontend2.MappingItem :=
  [{ kind := Frontend2.FieldKind.fileInput, label := "[[img1]]",
     dataPlaceholder := "[[img1]]", fileContent := some 7, textContent := "" },
   { kind := Frontend2.FieldKind.textArea, label := "[[code1]]",
     dataPlaceholder := "[[code1]]", fileContent := none, textContent := "cat flag" }]

/-- A Frontend1A state holding one registered image and a typed code
snippet in the modal. -/
def sampleA4 : Frontend1A.State :=
  { sampleA with placeholderMap := [("[[img1]]", Content.dataUrl 5)],
                 codeInputValue := "print(1)" }

/-- A Frontend1B state with a typed code snippet in the modal. -/
def sampleB4 : Frontend1B.State := { sampleB with codeInputValue := "ls" }

/-- Claim C4 (amended): each register operation stores exactly what the
spec's data model prescribes, except for images in the second part_000
script.  The first script's paste stores the FileReader base64 data URL
under the newly minted image token, and its code modal stores the entered
text verbatim under the newly minted code token; the second script's code
modal likewise stores the entered text verbatim, but its paste stores a
temporary `URL.createObjectURL` object URL under the image token (the
counterexample); every entry of frontend2's generate-time mappings object
comes from a mapping item, as either the textarea's exact text under its
placeholder or the selected file's data URL under its placeholder.
Consequently the code-token-entries-are-raw-text invariant is preserved by
every register operation of every variant, and the
image-token-entries-are-data-URLs invariant by every operation except the
second script's paste. -/
theorem claim_C4_amended (stA : Frontend1A.State) (stB : Frontend1B.State) (blob : Nat)
    (items : List Frontend2.MappingItem)
    (hcodeA : jsTrim stA.codeInputValue ≠ "") (hcodeB : jsTrim stB.codeInputValue ≠ "")
    (hText : ∀ it ∈ items, it.kind = Frontend2.FieldKind.textArea →
      startsWithStr it.dataPlaceholder "[[img" = false)
    (hFile : ∀ it ∈ items, it.kind = Frontend2.FieldKind.fileInput →
      startsWithStr it.dataPlaceholder "[[code" = false) :
    (Frontend1A.handlePasteOnload stA blob).placeholderMap
        = mapSet stA.placeholderMap ("[[img" ++ Nat.repr stA.imgCounter ++ "]]")
            (Content.dataUrl blob) ∧
    (Frontend1A.addCodeFromModal stA).placeholderMap
        = mapSet stA.placeholderMap ("[[code" ++ Nat.repr stA.codeCounter ++ "]]")
            (Content.rawText stA.codeInputValue) ∧
    (Frontend1B.handlePasteOnload stB blob).placeholderMap
        = mapSet stB.placeholderMap ("[[img" ++ Nat.repr stB.imgCounter ++ "]]")
            (Content.objectUrl blob) ∧
    (Frontend1B.addCodeFromModal stB).placeholderMap
        = mapSet stB.placeholderMap ("[[code" ++ Nat.repr stB.codeCounter ++ "]]")
            (Content.rawText stB.codeInputValue) ∧
    (∀ kv ∈ Frontend2.buildMappings items,
      (∃ it ∈ items, it.kind = Frontend2.FieldKind.textArea ∧
        kv = (it.dataPlaceholder, Content.rawText it.textContent)) ∨
      (∃ it ∈ items, it.kind = Frontend2.FieldKind.fileInput ∧
        ∃ b, it.fileContent = some b ∧ kv = (it.dataPlaceholder, Content.dataUrl b))) ∧
    (imgEntriesAreDataUrls stA.placeholderMap = true →
      imgEntriesAreDataUrls (Frontend1A.handlePasteOnload stA blob).placeholderMap = true ∧
      imgEntriesAreDataUrls (Frontend1A.addCodeFromModal stA).placeholderMap = true) ∧
    (imgEntriesAreDataUrls stB.placeholderMap = true →
      imgEntriesAreDataUrls (Frontend1B.addCodeFromModal stB).placeholderMap = true) ∧
    imgEntriesAreDataUrls (Frontend2.buildMappings items) = true ∧
    (codeEntriesAreRawText stA.placeholderMap = true →
      codeEntriesAreRawText (Frontend1A.handlePasteOnload stA blob).placeholderMap = true ∧
      codeEntriesAreRawText (Frontend1A.addCodeFromModal stA).placeholderMap = true) ∧
    (codeEntriesAreRawText stB.placeholderMap = true →
      codeEntriesAreRawText (Frontend1B.handlePasteOnload stB blob).placeholderMap = true ∧
      codeEntriesAreRawText (Frontend1B.addCodeFromModal stB).placeholderMap = true) ∧
    codeEntriesAreRawText (Frontend2.buildMappings items) = true := by
  have e1 : (Frontend1A.handlePasteOnload stA blob).placeholderMap
      = mapSet stA.placeholderMap ("[[img" ++ Nat.repr stA.imgCounter ++ "]]")
          (Content.dataUrl blob) := by
    simp [Frontend1A.handlePasteOnload, Frontend1A.mintImg,
      Frontend1A.insertPlaceholder, Frontend1A.addImagePreview]
  have e2 : (Frontend1A.addCodeFromModal stA).placeholderMap
      = mapSet stA.placeholderMap ("[[code" ++ Nat.repr stA.codeCounter ++ "]]")
          (Content.rawText stA.codeInputValue) := by
    simp [Frontend1A.addCodeFromModal, hcodeA, Frontend1A.mintCode,
      Frontend1A.insertPlaceholder, Frontend1A.addCodePreview]
  have e3 : (Frontend1B.handlePasteOnload stB blob).placeholderMap
      = mapSet stB.placeholderMap ("[[img" ++ Nat.repr stB.imgCounter ++ "]]")
          (Content.objectUrl blob) := by
    simp [Frontend1B.handlePasteOnload, Frontend1B.mintImg,
      Frontend1B.insertPlaceholder, Frontend1B.addImagePreview]
  have e4 : (Frontend1B.addCodeFromModal stB).placeholderMap
      = mapSet stB.placeholderMap ("[[code" ++ Nat.repr stB.codeCounter ++ "]]")
          (Content.rawText stB.codeInputValue) := by
    simp [Frontend1B.addCodeFromModal, hcodeB, Frontend1B.mintCode,
      Frontend1B.insertPlaceholder]
  refine ⟨e1, e2, e3, e4, ?_, ?_, ?_, ?_, ?_, ?_, ?_⟩
  · intro kv hkv
    unfold Frontend2.buildMappings at hkv
    rcases mem_foldl_mapSet (fun it : Frontend2.MappingItem => it.dataPlaceholder)
        (fun it : Frontend2.MappingItem => Content.dataUrl (it.fileContent.getD 0))
        _ _ _ hkv with h1 | h1
    · rcases mem_foldl_mapSet (fun it => it.dataPlaceholder)
          (fun it : Frontend2.MappingItem => Content.rawText it.textContent)
          _ _ _ h1 with h2 | h2
      · cases h2
      · obtain ⟨it, hit, he⟩ := h2
        rw [List.mem_filter] at hit
        exact Or.inl ⟨it, hit.1, by simpa using hit.2, he⟩
    · obtain ⟨it, hit, he⟩ := h1
      rw [List.mem_filter] at hit
      have hk : it.kind = Frontend2.FieldKind.fileInput ∧ it.fileContent.isSome := by
        simpa using hit.2
      obtain ⟨b, hb⟩ := Option.isSome_iff_exists.mp hk.2
      refine Or.inr ⟨it, hit.1, hk.1, b, hb, ?_⟩
      rw [he, hb]
      rfl
  · intro hA
    constructor
    · rw [e1]
      exact imgEntriesAreDataUrls_mapSet _ _ _ hA (fun _ => rfl)
    · rw [e2]
      apply imgEntriesAreDataUrls_mapSet _ _ _ hA
      intro hsw
      rw [startsWithStr_code_not_img] at hsw
      cases hsw
  · intro hB
    rw [e4]
    apply imgEntriesAreDataUrls_mapSet _ _ _ hB
    intro hsw
    rw [startsWithStr_code_not_img] at hsw
    cases hsw
  · unfold Frontend2.buildMappings
    apply imgEntries_foldl_dataUrl
    apply imgEntries_foldl_rawText
    · rfl
    · intro it hit
      rw [List.mem_filter] at hit
      refine hText it hit.1 ?_
      have := hit.2
      simpa using this
  · intro hA
    constructor
    · rw [e1]
      unfold codeEntriesAreRawText at hA ⊢
      apply mapSet_all _ _ _ _ hA
      simp [Content.isRawText, startsWithStr_img_not_code]
    · rw [e2]
      unfold codeEntriesAreRawText at hA ⊢
      apply mapSet_all _ _ _ _ hA
      simp [Content.isRawText]
  · intro hB
    constructor
    · rw [e3]
      unfold codeEntriesAreRawText at hB ⊢
      apply mapSet_all _ _ _ _ hB
      simp [Content.isRawText, startsWithStr_img_not_code]
    · rw [e4]
      unfold codeEntriesAreRawText at hB ⊢
      apply mapSet_all _ _ _ _ hB
      simp [Content.isRawText]
  · unfold Frontend2.buildMappings
    apply codeEntries_foldl_dataUrl
    · apply codeEntries_foldl_rawText
      rfl
    · intro it hit
      rw [List.mem_filter] at hit
      refine hFile it hit.1 ?_
      have hk : it.kind = Frontend2.FieldKind.fileInput ∧ it.fileContent.isSome := by
        simpa using hit.2
      exact hk.1

theorem claim_C4_amended_witness :
    (jsTrim sampleA4.codeInputValue ≠ "" ∧ jsTrim sampleB4.codeInputValue ≠ "" ∧
      (∀ it ∈ sampleItems, it.kind = Frontend2.FieldKind.textArea →
        startsWithStr it.dataPlaceholder "[[img" = false) ∧
      (∀ it ∈ sampleItems, it.kind = Frontend2.FieldKind.fileInput →
        startsWithStr it.dataPlaceholder "[[code" = false)) ∧
    ((Frontend1A.handlePasteOnload sampleA4 9).placeholderMap
        = mapSet sampleA4.placeholderMap ("[[img" ++ Nat.repr sampleA4.imgCounter ++ "]]")
            (Content.dataUrl 9) ∧
      (Frontend1A.addCodeFromModal sampleA4).placeholderMap
        = mapSet sampleA4.placeholderMap ("[[code" ++ Nat.repr sampleA4.codeCounter ++ "]]")
            (Content.rawText sampleA4.codeInputValue) ∧
      (Frontend1B.handlePasteOnload sampleB4 9).placeholderMap
        = mapSet sampleB4.placeholderMap ("[[img" ++ Nat.repr sampleB4.imgCounter ++ "]]")
            (Content.objectUrl 9) ∧
      (Frontend1B.addCodeFromModal sampleB4).placeholderMap
        = mapSet sampleB4.placeholderMap ("[[code" ++ Nat.repr sampleB4.codeCounter ++ "]]")
            (Content.rawText sampleB4.codeInputValue) ∧
      (∀ kv ∈ Frontend2.buildMappings sampleItems,
        (∃ it ∈ sampleItems, it.kind = Frontend2.FieldKind.textArea ∧
          kv = (it.dataPlaceholder, Content.rawText it.textContent)) ∨
        (∃ it ∈ sampleItems, it.kind = Frontend2.FieldKind.fileInput ∧
          ∃ b, it.fileContent = some b ∧ kv = (it.dataPlaceholder, Content.dataUrl b))) ∧
      (imgEntriesAreDataUrls sampleA4.placeholderMap = true →
        imgEntriesAreDataUrls (Frontend1A.handlePasteOnload sampleA4 9).placeholderMap
            = true ∧
        imgEntriesAreDataUrls (Frontend1A.addCodeFromModal sampleA4).placeholderMap = true) ∧
      (imgEntriesAreDataUrls sampleB4.placeholderMap = true →
        imgEntriesAreDataUrls (Frontend1B.addCodeFromModal sampleB4).placeholderMap = true) ∧
      imgEntriesAreDataUrls (Frontend2.buildMappings sampleItems) = true ∧
      (codeEntriesAreRawText sampleA4.placeholderMap = true →
        codeEntriesAreRawText (Frontend1A.handlePasteOnload sampleA4 9).placeholderMap
            = true ∧
        codeEntriesAreRawText (Frontend1A.addCodeFromModal sampleA4).placeholderMap = true) ∧
      (codeEntriesAreRawText sampleB4.placeholderMap = true →
        codeEntriesAreRawText (Frontend1B.handlePasteOnload sampleB4 9).placeholderMap
            = true ∧
        codeEntriesAreRawText (Frontend1B.addCodeFromModal sampleB4).placeholderMap = true) ∧
      codeEntriesAreRawText (Frontend2.buildMappings sampleItems) = true) :=
  ⟨⟨by decide, by decide, by decide, by decide⟩,
    claim_C4_amended sampleA4 sampleB4 9 sampleItems
      (by decide) (by decide) (by decide) (by decide)⟩

/-! ### Renumbering lemmas for C2 -/

/-- The prefix test `reindexPlaceholders` applies to each mapping item:
does the item's `data-placeholder` start with `[[<type>`? -/
def matchesType (t : String) (it : Frontend2.MappingItem) : Bool :=
  startsWithStr it.dataPlaceholder ("[[" ++ t)

/-- The placeholder token of the given type and number. -/
def typeToken (t : String) (n : Nat) : String := "[[" ++ t ++ Nat.repr n ++ "]]"

theorem startsWithStr_typeToken (t : String) (n : Nat) :
    startsWithStr (typeToken t n) ("[[" ++ t) = true := by
  unfold typeToken
  rw [String.append_assoc]
  exact startsWithStr_self_append _ _

theorem reindexAux_counter (t : String) (items : List Frontend2.MappingItem) (c : Nat) :
    (Frontend2.reindexAux t c items).2 = c + items.countP (matchesType t) := by
  induction items generalizing c with
  | nil => simp [Frontend2.reindexAux]
  | cons it rest ih =>
    have hmt : matchesType t it = startsWithStr it.dataPlaceholder ("[[" ++ t) := rfl
    by_cases h : startsWithStr it.dataPlaceholder ("[[" ++ t)
    · simp only [Frontend2.reindexAux, if_pos h, List.countP_cons, hmt, h, if_true, ih]
      omega
    · have hmf : matchesType t it = false := by simpa [matchesType] using h
      simp only [Frontend2.reindexAux, if_neg h, List.countP_cons, hmf, if_false, ih]
      simp

theorem reindexAux_length (t : String) (items : List Frontend2.MappingItem) (c : Nat) :
    (Frontend2.reindexAux t c items).1.length = items.length := by
  induction items generalizing c with
  | nil => rfl
  | cons it rest ih =>
    by_cases h : startsWithStr it.dataPlaceholder ("[[" ++ t)
    · simp only [Frontend2.reindexAux, if_pos h, List.length_cons, ih]
    · simp only [Frontend2.reindexAux, if_neg h, List.length_cons, ih]

theorem reindexAux_matched (t : String) (items : List Frontend2.MappingItem) (c : Nat) :
    ((Frontend2.reindexAux t c items).1.filter (matchesType t)).map
        (fun it => (it.label, it.dataPlaceholder))
      = (List.range (items.countP (matchesType t))).map
          (fun i => (typeToken t (c + i), typeToken t (c + i))) := by
  induction items generalizing c with
  | nil => simp [Frontend2.reindexAux]
  | cons it rest ih =>
    by_cases h : startsWithStr it.dataPlaceholder ("[[" ++ t)
    · have hmt : matchesType t it = true := h
      have hrel : matchesType t
          ({ it with
              label := "[[" ++ t ++ Nat.repr c ++ "]]",
              dataPlaceholder := "[[" ++ t ++ Nat.repr c ++ "]]" } : Frontend2.MappingItem)
          = true := startsWithStr_typeToken t c
      simp only [Frontend2.reindexAux, if_pos h, List.countP_cons, hmt, if_true]
      rw [List.filter_cons_of_pos hrel, List.map_cons, ih,
        List.range_succ_eq_map, List.map_cons, List.map_map]
      congr 1
      apply List.map_congr_left
      intro k _
      show (typeToken t (c + 1 + k), typeToken t (c + 1 + k))
          = (typeToken t (c + (k + 1)), typeToken t (c + (k + 1)))
      rw [show c + 1 + k = c + (k + 1) by omega]
    · have hmt : matchesType t it = false := by simpa [matchesType] using h
      simp only [Frontend2.reindexAux, if_neg h, List.countP_cons, hmt, if_false]
      rw [List.filter_cons_of_neg (by simp [hmt]), ih]
      simp

theorem reindexAux_zip (t : String) (items : List Frontend2.MappingItem) (c : Nat) :
    ((Frontend2.reindexAux t c items).1.zip items).all
        (fun p => matchesType t p.2 || (p.1 == p.2)) = true := by
  induction items generalizing c with
  | nil => rfl
  | cons it rest ih =>
    by_cases h : startsWithStr it.dataPlaceholder ("[[" ++ t)
    · have hmt : matchesType t it = true := h
      simp only [Frontend2.reindexAux, if_pos h, List.zip_cons_cons, List.all_cons, hmt,
        Bool.true_or, Bool.true_and]
      exact ih (c + 1)
    · have hmt : matchesType t it = false := by simpa [matchesType] using h
      simp only [Frontend2.reindexAux, if_neg h, List.zip_cons_cons, List.all_cons, hmt,
        Bool.false_or, beq_self_eq_true, Bool.true_and]
      exact ih c

/-- Claim C2: in frontend2, after the delete button of a mapping item of
type `t` (`img` or `code`) removes that item, every remaining item of the
same type — those whose `data-placeholder` starts with `[[<t>` — is
renumbered in on-screen order to the contiguous labels
`[[<t>1]], …, [[<t>count]]` (both the visible label and the
`data-placeholder`), where `count` is the number of remaining items of that
type; that type's counter is reset to `count + 1`, the other type's counter
is untouched, and every item of the other type is left entirely
unchanged, in place. -/
theorem claim_C2 (st : Frontend2.State) (i : Nat) (t : String)
    (ht : t = "img" ∨ t = "code") :
    ((Frontend2.deleteItemClick st i t).items.filter (matchesType t)).map
        (fun it => (it.label, it.dataPlaceholder))
      = (List.range ((st.items.eraseIdx i).countP (matchesType t))).map
          (fun k => (typeToken t (k + 1), typeToken t (k + 1))) ∧
    (t = "img" →
      (Frontend2.deleteItemClick st i t).imageCounter
          = (st.items.eraseIdx i).countP (matchesType t) + 1 ∧
      (Frontend2.deleteItemClick st i t).codeCounter = st.codeCounter) ∧
    (t = "code" →
      (Frontend2.deleteItemClick st i t).codeCounter
          = (st.items.eraseIdx i).countP (matchesType t) + 1 ∧
      (Frontend2.deleteItemClick st i t).imageCounter = st.imageCounter) ∧
    ((Frontend2.deleteItemClick st i t).items.zip (st.items.eraseIdx i)).all
        (fun p => matchesType t p.2 || (p.1 == p.2)) = true ∧
    (Frontend2.deleteItemClick st i t).items.length = (st.items.eraseIdx i).length := by
  refine ⟨?_, ?_, ?_, ?_, ?_⟩
  · show (((Frontend2.reindexAux t 1 (st.items.eraseIdx i)).1.filter (matchesType t)).map
        (fun it => (it.label, it.dataPlaceholder))) = _
    rw [reindexAux_matched]
    apply List.map_congr_left
    intro k _
    rw [show 1 + k = k + 1 by omega]
  · intro h
    subst h
    constructor
    · show (if ("img" : String) = "img" then (Frontend2.reindexAux "img" 1 (st.items.eraseIdx i)).2
          else st.imageCounter) = _
      rw [if_pos rfl, reindexAux_counter]
      omega
    · show (if ("img" : String) = "code" then (Frontend2.reindexAux "img" 1 (st.items.eraseIdx i)).2
          else st.codeCounter) = _
      rw [if_neg (by decide)]
  · intro h
    subst h
    constructor
    · show (if ("code" : String) = "code" then (Frontend2.reindexAux "code" 1 (st.items.eraseIdx i)).2
          else st.codeCounter) = _
      rw [if_pos rfl, reindexAux_counter]
      omega
    · show (if ("code" : String) = "img" then (Frontend2.reindexAux "code" 1 (st.items.eraseIdx i)).2
          else st.imageCounter) = _
      rw [if_neg (by decide)]
  · exact reindexAux_zip t (st.items.eraseIdx i) 1
  · exact reindexAux_length t (st.items.eraseIdx i) 1

/-- A Frontend2 state with two image items (the first with a selected file)
and one code item between them, counters as three add-clicks leave them. -/
def sampleF2 : Frontend2.State :=
  { sampleF with
    items := [{ kind := Frontend2.FieldKind.fileInput, label := "[[img1]]",
                dataPlaceholder := "[[img1]]", fileContent := some 3, textContent := "" },
              { kind := Frontend2.FieldKind.textArea, label := "[[code1]]",
                dataPlaceholder := "[[code1]]", fileContent := none, textContent := "x" },
              { kind := Frontend2.FieldKind.fileInput, label := "[[img2]]",
                dataPlaceholder := "[[img2]]", fileContent := none, textContent := "" }],
    imageCounter := 3, codeCounter := 2 }

theorem claim_C2_witness :
    (("img" : String) = "img" ∨ ("img" : String) = "code") ∧
    (((Frontend2.deleteItemClick sampleF2 0 "img").items.filter (matchesType "img")).map
        (fun it => (it.label, it.dataPlaceholder))
      = (List.range ((sampleF2.items.eraseIdx 0).countP (matchesType "img"))).map
          (fun k => (typeToken "img" (k + 1), typeToken "img" (k + 1))) ∧
    (("img" : String) = "img" →
      (Frontend2.deleteItemClick sampleF2 0 "img").imageCounter
          = (sampleF2.items.eraseIdx 0).countP (matchesType "img") + 1 ∧
      (Frontend2.deleteItemClick sampleF2 0 "img").codeCounter = sampleF2.codeCounter) ∧
    (("img" : String) = "code" →
      (Frontend2.deleteItemClick sampleF2 0 "img").codeCounter
          = (sampleF2.items.eraseIdx 0).countP (matchesType "img") + 1 ∧
      (Frontend2.deleteItemClick sampleF2 0 "img").imageCounter = sampleF2.imageCounter) ∧
    ((Frontend2.deleteItemClick sampleF2 0 "img").items.zip (sampleF2.items.eraseIdx 0)).all
        (fun p => matchesType "img" p.2 || (p.1 == p.2)) = true ∧
    (Frontend2.deleteItemClick sampleF2 0 "img").items.length
        = (sampleF2.items.eraseIdx 0).length) :=
  ⟨Or.inl rfl, claim_C2 sampleF2 0 "img" (Or.inl rfl)⟩

/-- Claim C5 counterexample: the claim says every successful generation
displays the response's `generated_text`, but the first part_000 script
(lines 137-142) appends the fixed chat message `Done!` — the generated
text only backs the attached download buttons and is never displayed. -/
theorem claim_C5_counterexample :
    (Frontend1A.sendMessage sampleA (Outcome.ok "s1" "## Solution")).chatBox.map
        ChatMessage.text = ["hi", "Done!"] ∧
    ¬ "## Solution" ∈ (Frontend1A.sendMessage sampleA (Outcome.ok "s1" "## Solution")).chatBox.map
        ChatMessage.text := by
  constructor <;> decide

/-- Claim C5 (amended): for a 200 response `{session_id, generated_text}`,
frontend2 displays the generated text, retains the session id and enables
the export buttons; the first part_000 script retains the session id but
displays the fixed message `Done!` carrying the generated text only as the
content bound to its download buttons; the second part_000 script displays
the generated text but retains no session identifier (it declares none). -/
theorem claim_C5_amended (stA : Frontend1A.State) (stB : Frontend1B.State)
    (stF : Frontend2.State) (sid g : String)
    (hA1 : stA.sendButtonDisabled = false) (hA2 : jsTrim stA.messageValue ≠ "")
    (hB : jsTrim stB.messageValue ≠ "") :
    ((Frontend2.generateClick stF (Outcome.ok sid g)).outputText = g ∧
      (Frontend2.generateClick stF (Outcome.ok sid g)).currentSessionId = some sid ∧
      (Frontend2.generateClick stF (Outcome.ok sid g)).zipEnabled = true ∧
      (Frontend2.generateClick stF (Outcome.ok sid g)).docxEnabled = true) ∧
    ((Frontend1A.sendMessage stA (Outcome.ok sid g)).currentSessionId = some sid ∧
      (Frontend1A.sendMessage stA (Outcome.ok sid g)).chatBox
        = stA.chatBox ++
          [{ text := jsTrim stA.messageValue, sender := "user", downloadContent := none },
           { text := "Done!", sender := "bot", downloadContent := some g }]) ∧
    (Frontend1B.sendMessage stB (Outcome.ok sid g)).chatBox
        = stB.chatBox ++
          [{ text := jsTrim stB.messageValue, sender := "user", downloadContent := none },
           { text := g, sender := "bot", downloadContent := some g }] := by
  refine ⟨⟨rfl, rfl, rfl, rfl⟩, ⟨?_, ?_⟩, ?_⟩
  · simp [Frontend1A.sendMessage, hA1, hA2, Frontend1A.appendMessage]
  · simp [Frontend1A.sendMessage, hA1, hA2, Frontend1A.appendMessage]
  · simp [Frontend1B.sendMessage, hB, Frontend1B.appendMessage]

theorem claim_C5_amended_witness :
    (sampleA.sendButtonDisabled = false ∧ jsTrim sampleA.messageValue ≠ "" ∧
      jsTrim sampleB.messageValue ≠ "") ∧
    ((Frontend2.generateClick sampleF (Outcome.ok "s1" "## Solution")).outputText
        = "## Solution" ∧
      (Frontend2.generateClick sampleF (Outcome.ok "s1" "## Solution")).currentSessionId
        = some "s1" ∧
      (Frontend2.generateClick sampleF (Outcome.ok "s1" "## Solution")).zipEnabled = true ∧
      (Frontend2.generateClick sampleF (Outcome.ok "s1" "## Solution")).docxEnabled = true) ∧
    ((Frontend1A.sendMessage sampleA (Outcome.ok "s1" "## Solution")).currentSessionId
        = some "s1" ∧
      (Frontend1A.sendMessage sampleA (Outcome.ok "s1" "## Solution")).chatBox
        = sampleA.chatBox ++
          [{ text := jsTrim sampleA.messageValue, sender := "user", downloadContent := none },
           { text := "Done!", sender := "bot", downloadContent := some "## Solution" }]) ∧
    (Frontend1B.sendMessage sampleB (Outcome.ok "s1" "## Solution")).chatBox
        = sampleB.chatBox ++
          [{ text := jsTrim sampleB.messageValue, sender := "user", downloadContent := none },
           { text := "## Solution", sender := "bot", downloadContent := some "## Solution" }] :=
  ⟨⟨by decide, by decide, by decide⟩,
    claim_C5_amended sampleA sampleB sampleF "s1" "## Solution"
      (by decide) (by decide) (by decide)⟩

/-- Claim C6 counterexample: with no session identifier held, frontend2's
`handleDownload` (lines 184-186) returns without any network call but also
without any user-visible notice — its alert list stays empty and the state
is unchanged — contradicting the claim that a local notice explaining the
refusal is surfaced in every export path. -/
theorem claim_C6_counterexample :
    Frontend2.handleDownload sampleF "http://127.0.0.1:8000/download-package"
        "writeup_package.zip" DlOutcome.ok = sampleF ∧
    (Frontend2.handleDownload sampleF "http://127.0.0.1:8000/download-package"
        "writeup_package.zip" DlOutcome.ok).alerts = [] ∧
    (Frontend2.handleDownload sampleF "http://127.0.0.1:8000/download-package"
        "writeup_package.zip" DlOutcome.ok).dlFetchLog = [] := by
  refine ⟨by decide, by decide, by decide⟩

/-- Claim C6 (amended): an export attempted while no truthy session
identifier is held performs zero network calls in every variant; the first
part_000 script additionally surfaces the alert `No session ID found.
Please generate a writeup first.` for both export endpoints, whereas
frontend2 refuses silently, leaving its state unchanged. -/
theorem claim_C6_amended (stA : Frontend1A.State) (stF : Frontend2.State)
    (content endpoint fileName : String) (o1 o2 o3 : DlOutcome)
    (hA : jsTruthy stA.currentSessionId = false)
    (hF : jsTruthy stF.currentSessionId = false) :
    Frontend1A.downloadPackage stA content o1
        = { stA with alerts := stA.alerts ++
            ["No session ID found. Please generate a writeup first."] } ∧
    Frontend1A.downloadDocx stA content o2
        = { stA with alerts := stA.alerts ++
            ["No session ID found. Please generate a writeup first."] } ∧
    Frontend2.handleDownload stF endpoint fileName o3 = stF := by
  refine ⟨?_, ?_, ?_⟩
  · simp [Frontend1A.downloadPackage, hA]
  · simp [Frontend1A.downloadDocx, hA]
  · simp [Frontend2.handleDownload, hF]

theorem claim_C6_amended_witness :
    (jsTruthy sampleA.currentSessionId = false ∧
      jsTruthy sampleF.currentSessionId = false) ∧
    Frontend1A.downloadPackage sampleA "# writeup" DlOutcome.ok
        = { sampleA with alerts := sampleA.alerts ++
            ["No session ID found. Please generate a writeup first."] } ∧
    Frontend1A.downloadDocx sampleA "# writeup" (DlOutcome.networkFailure "down")
        = { sampleA with alerts := sampleA.alerts ++
            ["No session ID found. Please generate a writeup first."] } ∧
    Frontend2.handleDownload sampleF "http://127.0.0.1:8000/download-docx" "writeup.docx"
        DlOutcome.ok = sampleF :=
  ⟨⟨by decide, by decide⟩,
    claim_C6_amended sampleA sampleF "# writeup" "http://127.0.0.1:8000/download-docx"
      "writeup.docx" DlOutcome.ok (DlOutcome.networkFailure "down") DlOutcome.ok
      (by decide) (by decide)⟩

/-- Claim C9: a code submission from the compose modal whose text is empty
or whitespace-only leaves the whole state unchanged in both part_000
scripts — in particular no map entry is added, the code counter is not
incremented, the prompt text is untouched and no preview is created. -/
theorem claim_C9 (stA : Frontend1A.State) (stB : Frontend1B.State)
    (hA : jsTrim stA.codeInputValue = "") (hB : jsTrim stB.codeInputValue = "") :
    Frontend1A.addCodeFromModal stA = stA ∧ Frontend1B.addCodeFromModal stB = stB := by
  constructor
  · simp [Frontend1A.addCodeFromModal, hA]
  · simp [Frontend1B.addCodeFromModal, hB]

theorem claim_C9_witness :
    (jsTrim ({ sampleA with codeInputValue := "  \n " } : Frontend1A.State).codeInputValue = "" ∧
      jsTrim ({ sampleB with codeInputValue := " " } : Frontend1B.State).codeInputValue = "") ∧
    Frontend1A.addCodeFromModal { sampleA with codeInputValue := "  \n " }
        = { sampleA with codeInputValue := "  \n " } ∧
    Frontend1B.addCodeFromModal { sampleB with codeInputValue := " " }
        = { sampleB with codeInputValue := " " } :=
  ⟨⟨by decide, by decide⟩,
    claim_C9 { sampleA with codeInputValue := "  \n " } { sampleB with codeInputValue := " " }
      (by decide) (by decide)⟩

/-- Claim C10: a send attempt whose message is empty after trimming is a
complete no-op in both part_000 scripts: the early return fires before the
fetch and before the post-submission reset, so the state — including the
placeholder map, both counters, all previews and the request log — is
exactly retained. -/
theorem claim_C10 (stA : Frontend1A.State) (stB : Frontend1B.State) (oA oB : Outcome)
    (hA : jsTrim stA.messageValue = "") (hA2 : stA.sendButtonDisabled = false)
    (hB : jsTrim stB.messageValue = "") :
    Frontend1A.sendMessage stA oA = stA ∧ Frontend1B.sendMessage stB oB = stB := by
  constructor
  · simp only [Frontend1A.sendMessage, hA2, Bool.false_eq_true, if_false, hA, if_pos]
    cases stA
    simp_all
  · simp [Frontend1B.sendMessage, hB]

theorem claim_C10_witness :
    (jsTrim ({ sampleA with messageValue := "  " } : Frontend1A.State).messageValue = "" ∧
      ({ sampleA with messageValue := "  " } : Frontend1A.State).sendButtonDisabled = false ∧
      jsTrim ({ sampleB with messageValue := "" } : Frontend1B.State).messageValue = "") ∧
    Frontend1A.sendMessage { sampleA with messageValue := "  " } (Outcome.ok "s1" "text")
        = { sampleA with messageValue := "  " } ∧
    Frontend1B.sendMessage { sampleB with messageValue := "" } (Outcome.networkFailure "down")
        = { sampleB with messageValue := "" } :=
  ⟨⟨by decide, by decide, by decide⟩,
    claim_C10 { sampleA with messageValue := "  " } { sampleB with messageValue := "" }
      (Outcome.ok "s1" "text") (Outcome.networkFailure "down")
      (by decide) (by decide) (by decide)⟩

/-- A Frontend1B state holding one registered image attachment (as a
single paste leaves it) and a typed prompt. -/
def sampleB8 : Frontend1B.State :=
  { sampleB with placeholderMap := [("[[img1]]", Content.objectUrl 0)],
                 imgCounter := 2,
                 imagePreviewContainer := [(Content.objectUrl 0, "[[img1]]")] }

/-- Claim C8 counterexample: the claim says that after every completed
generation request — success or failure — the registry is reset, but in
the second part_000 script an HTTP-error completion reaches the catch
after line 421 already removed the `Thinking...` node, so the catch's
`chatBox.removeChild(thinkingMessage)` (line 433) throws a NotFoundError
and the reset of lines 438-442 never runs: the placeholder map, the image
counter and the previews are all retained. -/
theorem claim_C8_counterexample :
    (Frontend1B.sendMessage sampleB8 (Outcome.httpError 500 Body.jsonNoDetail)).placeholderMap
        = [("[[img1]]", Content.objectUrl 0)] ∧
    (Frontend1B.sendMessage sampleB8 (Outcome.httpError 500 Body.jsonNoDetail)).imgCounter = 2 ∧
    (Frontend1B.sendMessage sampleB8 (Outcome.httpError 500 Body.jsonNoDetail)).imagePreviewContainer
        = [(Content.objectUrl 0, "[[img1]]")] ∧
    ¬ (Frontend1B.sendMessage sampleB8 (Outcome.httpError 500 Body.jsonNoDetail)).placeholderMap
        = [] := by
  refine ⟨by decide, by decide, by decide, by decide⟩

/-- Claim C8 (amended): in the first part_000 script the post-request
reset is unconditional — on success, HTTP failure and network failure
alike the placeholder map is emptied, both counters return to 1 and both
preview containers are cleared, from any starting state (its catch cannot
throw: `response.json()` is guarded and the loading-animation removal is
null-checked).  In the second part_000 script the reset runs on success
and on a rejected fetch, but an HTTP-error completion crashes inside the
catch (NotFoundError from re-removing the `Thinking...` node) before the
reset, so the placeholder map, both counters and the image previews are
retained. -/
theorem claim_C8_amended (stA : Frontend1A.State) (stB : Frontend1B.State) (oA : Outcome)
    (sid g m : String) (status : Nat) (body : Body)
    (hA : jsTrim stA.messageValue ≠ "") (hA2 : stA.sendButtonDisabled = false)
    (hB : jsTrim stB.messageValue ≠ "") :
    ((Frontend1A.sendMessage stA oA).placeholderMap = [] ∧
      (Frontend1A.sendMessage stA oA).codeCounter = 1 ∧
      (Frontend1A.sendMessage stA oA).imgCounter = 1 ∧
      (Frontend1A.sendMessage stA oA).imagePreviewContainer = [] ∧
      (Frontend1A.sendMessage stA oA).codePreviewContainer = []) ∧
    ((Frontend1B.sendMessage stB (Outcome.ok sid g)).placeholderMap = [] ∧
      (Frontend1B.sendMessage stB (Outcome.ok sid g)).codeCounter = 1 ∧
      (Frontend1B.sendMessage stB (Outcome.ok sid g)).imgCounter = 1 ∧
      (Frontend1B.sendMessage stB (Outcome.ok sid g)).imagePreviewContainer = []) ∧
    ((Frontend1B.sendMessage stB (Outcome.networkFailure m)).placeholderMap = [] ∧
      (Frontend1B.sendMessage stB (Outcome.networkFailure m)).codeCounter = 1 ∧
      (Frontend1B.sendMessage stB (Outcome.networkFailure m)).imgCounter = 1 ∧
      (Frontend1B.sendMessage stB (Outcome.networkFailure m)).imagePreviewContainer = []) ∧
    ((Frontend1B.sendMessage stB (Outcome.httpError status body)).placeholderMap
        = stB.placeholderMap ∧
      (Frontend1B.sendMessage stB (Outcome.httpError status body)).codeCounter
        = stB.codeCounter ∧
      (Frontend1B.sendMessage stB (Outcome.httpError status body)).imgCounter
        = stB.imgCounter ∧
      (Frontend1B.sendMessage stB (Outcome.httpError status body)).imagePreviewContainer
        = stB.imagePreviewContainer) := by
  refine ⟨?_, ?_, ?_, ?_⟩
  · cases oA <;>
      simp [Frontend1A.sendMessage, hA2, hA, Frontend1A.appendMessage]
  · simp [Frontend1B.sendMessage, hB, Frontend1B.appendMessage]
  · simp [Frontend1B.sendMessage, hB, Frontend1B.appendMessage]
  · simp [Frontend1B.sendMessage, hB, Frontend1B.appendMessage]

theorem claim_C8_amended_witness :
    (jsTrim sampleA.messageValue ≠ "" ∧ sampleA.sendButtonDisabled = false ∧
      jsTrim sampleB8.messageValue ≠ "") ∧
    ((Frontend1A.sendMessage sampleA (Outcome.httpError 500 Body.jsonNoDetail)).placeholderMap
        = [] ∧
      (Frontend1A.sendMessage sampleA (Outcome.httpError 500 Body.jsonNoDetail)).codeCounter = 1 ∧
      (Frontend1A.sendMessage sampleA (Outcome.httpError 500 Body.jsonNoDetail)).imgCounter = 1 ∧
      (Frontend1A.sendMessage sampleA
          (Outcome.httpError 500 Body.jsonNoDetail)).imagePreviewContainer = [] ∧
      (Frontend1A.sendMessage sampleA
          (Outcome.httpError 500 Body.jsonNoDetail)).codePreviewContainer = []) ∧
    ((Frontend1B.sendMessage sampleB8 (Outcome.ok "s1" "done")).placeholderMap = [] ∧
      (Frontend1B.sendMessage sampleB8 (Outcome.ok "s1" "done")).codeCounter = 1 ∧
      (Frontend1B.sendMessage sampleB8 (Outcome.ok "s1" "done")).imgCounter = 1 ∧
      (Frontend1B.sendMessage sampleB8 (Outcome.ok "s1" "done")).imagePreviewContainer = []) ∧
    ((Frontend1B.sendMessage sampleB8 (Outcome.networkFailure "down")).placeholderMap = [] ∧
      (Frontend1B.sendMessage sampleB8 (Outcome.networkFailure "down")).codeCounter = 1 ∧
      (Frontend1B.sendMessage sampleB8 (Outcome.networkFailure "down")).imgCounter = 1 ∧
      (Frontend1B.sendMessage sampleB8
          (Outcome.networkFailure "down")).imagePreviewContainer = []) ∧
    ((Frontend1B.sendMessage sampleB8 (Outcome.httpError 500 Body.jsonNoDetail)).placeholderMap
        = sampleB8.placeholderMap ∧
      (Frontend1B.sendMessage sampleB8 (Outcome.httpError 500 Body.jsonNoDetail)).codeCounter
        = sampleB8.codeCounter ∧
      (Frontend1B.sendMessage sampleB8 (Outcome.httpError 500 Body.jsonNoDetail)).imgCounter
        = sampleB8.imgCounter ∧
      (Frontend1B.sendMessage sampleB8
          (Outcome.httpError 500 Body.jsonNoDetail)).imagePreviewContainer
        = sampleB8.imagePreviewContainer) :=
  ⟨⟨by decide, by decide, by decide⟩,
    claim_C8_amended sampleA sampleB8 (Outcome.httpError 500 Body.jsonNoDetail)
      "s1" "done" "down" 500 Body.jsonNoDetail (by decide) (by decide) (by decide)⟩

end CtfChatbot
